import Mathlib

/-!
Verification development for `docker/seed.py`, a single-file CLI utility that
provisions a DynamoDB table (with one GSI and one LSI) and seeds it with a
Chinook-like synthetic dataset.

The script is embedded shallowly:

* Randomness and the wall clock are modelled by an explicit environment
  `PyEnv σ`: `pick s n` returns an arbitrary index below `n` together with the
  next state (covering `random.choice`, `random.choices`, `random.randint`,
  `random.sample`, `random.uniform`), and `now` returns the current Unix time
  in seconds.  All theorems are universally quantified over this environment,
  so they hold for every behaviour of the random source and clock.
* Items (Python dicts written via `put_item`) are association lists from
  attribute names to values (`Item`); `add_index_keys` is a direct port.
* Monetary values: `round(random.uniform(0.49, 1.99), 2)` always yields an
  exact two-decimal dollar value (49..199 cents), represented here by its cent
  count; the float accumulation `total += price * qty` is modelled by exact
  rational arithmetic (its rounding error is far below the half-cent
  tolerance of the final `round(total, 2)` for any feasible line count), and
  `Decimal(str(...))` of such a value is the identity on the represented
  rational.
* The DynamoDB control plane is modelled at two levels: the polling loops
  `wait_table_active` / `wait_deleted` consume an explicit list of
  (describe-response, observation-time) pairs, and `ensure_table` runs against
  a stable service state, instantiating the polling loops with the polls such
  a stable service produces.
-/

/-! ## Random source and clock environment -/

/-- Environment supplying randomness and the clock.  `pick s n` models drawing
a uniformly random index below `n` (the distribution is irrelevant to the
claims; only the possible outcomes matter), `now` models
`datetime.now(timezone.utc)` as a Unix timestamp in seconds. -/
structure PyEnv (σ : Type) where
  pick : σ → Nat → Nat × σ
  now : σ → Nat × σ
  pickOk : ∀ s n, 0 < n → (pick s n).1 < n

/-- Port of `random.choice(xs)` for nonempty `xs`; the script never calls it on an
empty list (the one guarded call site checks `if track_ids`). -/
def randChoice {σ α : Type} [Inhabited α] (E : PyEnv σ) (xs : List α) (s : σ) : α × σ :=
  let p := E.pick s xs.length
  (xs.getD p.1 default, p.2)

/-- Port of `random.choices(xs, k=k)`: `k` independent draws with replacement. -/
def randChoices {σ α : Type} [Inhabited α] (E : PyEnv σ) (xs : List α) : Nat → σ → List α × σ
  | 0, s => ([], s)
  | Nat.succ k, s =>
    let p := randChoice E xs s
    let q := randChoices E xs k p.2
    (p.1 :: q.1, q.2)

/-- Port of `random.sample(xs, k)`: `k` draws without replacement. -/
def randSample {σ : Type} (E : PyEnv σ) : List String → Nat → σ → List String × σ
  | _, 0, s => ([], s)
  | xs, Nat.succ k, s =>
    if xs.isEmpty then ([], s)
    else
      let p := E.pick s xs.length
      let q := randSample E (xs.eraseIdx p.1) k p.2
      ((xs.getD p.1 "") :: q.1, q.2)

/-- Port of `random.randint(a, b)` for `a ≤ b` (all call sites use literal bounds). -/
def randint {σ : Type} (E : PyEnv σ) (a b : Nat) (s : σ) : Nat × σ :=
  let p := E.pick s (b + 1 - a)
  (a + p.1, p.2)

/-- The alphabet `string.ascii_uppercase + string.digits`. -/
def ID_CHARS : List Char := "ABCDEFGHIJKLMNOPQRSTUVWXYZ0123456789".toList

/-- Port of `rand_id(prefix, n=8)`: `f"{prefix}#{''.join(random.choices(alphabet, k=n))}"`. -/
def rand_id {σ : Type} (E : PyEnv σ) (pre : String) (n : Nat) (s : σ) : String × σ :=
  let c := randChoices E ID_CHARS n s
  (pre ++ "#" ++ String.mk c.1, c.2)

/-- Value of `round(random.uniform(0.49, 1.99), 2)`: a two-decimal dollar value in
[0.49, 1.99], represented by its cent count (49..199, i.e. 151 outcomes). -/
def rand_price_cents {σ : Type} (E : PyEnv σ) (s : σ) : Nat × σ :=
  let p := E.pick s 151
  (49 + p.1, p.2)

def ARTIST_NAMES : List String :=
  ["The Meteors", "Sonic Avenue", "Neon Fields", "Crimson Tide", "Blue Horizon",
   "The Wanderers", "Velvet Echo", "Golden Owls", "Stone Harbor", "Silver Lining",
   "Paper Tigers", "Echo Beach", "Analog Youth", "Glass Engine", "Static Ritual"]

def ALBUM_WORDS : List String :=
  ["Echoes", "Horizons", "Reflections", "Neon", "Fragments", "Voyager",
   "Midnight", "Catalyst", "Blueprints", "Origins", "Spectra", "Signals"]

def GENRES : List String :=
  ["Rock", "Pop", "Indie", "Jazz", "Blues", "Classical", "Electronic", "Hip-Hop"]

def INSTRUMENTS : List String :=
  ["Guitar", "Bass", "Drums", "Keys", "Synth", "Violin", "Sax", "Trumpet"]

def CITIES : List String :=
  ["Seattle", "Berlin", "Madrid", "Reykjavik", "Austin", "Dublin", "Sydney", "Tokyo"]

/-- Port of `rand_title()`. -/
def rand_title {σ : Type} (E : PyEnv σ) (s : σ) : String × σ :=
  let p := randChoice E ALBUM_WORDS s
  let q := randChoice E ALBUM_WORDS p.2
  (p.1 ++ " " ++ q.1, q.2)

/-- Port of `rand_track_name()`. -/
def rand_track_name {σ : Type} (E : PyEnv σ) (s : σ) : String × σ :=
  let p := randChoice E ["Lost", "Found", "Faded", "Bright", "Hidden", "Open"] s
  let q := randChoice E ["Waves", "Lines", "Skies", "Rooms", "Streets", "Windows"] p.2
  (p.1 ++ " " ++ q.1, q.2)

/-- Port of `rand_name()`. -/
def rand_name {σ : Type} (E : PyEnv σ) (s : σ) : String × σ :=
  let p := randChoice E
    ["Alex", "Sam", "Charlie", "Taylor", "Morgan", "Riley", "Jordan", "Casey", "Avery", "Quinn"] s
  let q := randChoice E
    ["Smith", "Lee", "Martinez", "Kim", "Nguyen", "Garcia", "Patel", "Cohen", "Novak", "Khan"] p.2
  (p.1 ++ " " ++ q.1, q.2)

/-- Port of `rand_email(name)`. -/
def rand_email {σ : Type} (E : PyEnv σ) (name : String) (s : σ) : String × σ :=
  let handle := (name.toLower).replace " " "."
  let d := randChoice E ["example.com", "mail.test", "demo.local"] s
  (handle ++ "@" ++ d.1, d.2)

/-- Zero padding, as produced by the f-string format specifiers `:04d`,
`:05d`, `:010d`, `:03d` on nonnegative integers. -/
def zfill (w : Nat) (s : String) : String :=
  if w ≤ s.length then s else String.mk (List.replicate (w - s.length) '0') ++ s

/-! ## Items -/

/-- DynamoDB attribute values used by the script: strings, numbers
(ints and `Decimal`s, both carried as exact rationals), and the string list
stored under `members`. -/
inductive AttrVal
  | S (s : String)
  | N (q : ℚ)
  | L (l : List String)
deriving DecidableEq

/-- A Python dict written via `put_item`, as an association list in insertion
order. -/
abbrev Item := List (String × AttrVal)

def getAttr : Item → String → Option AttrVal
  | [], _ => none
  | (k, v) :: rest, key => if k = key then some v else getAttr rest key

/-- Python dict assignment `item[k] = v`: overwrite in place, else append. -/
def setAttr : Item → String → AttrVal → Item
  | [], k, v => [(k, v)]
  | (k0, v0) :: rest, k, v => if k0 = k then (k, v) :: rest else (k0, v0) :: setAttr rest k v

/-- Port of `add_index_keys(item, item_type, pk, sk, lsi1sk=None)`. -/
def add_index_keys (item : Item) (item_type pk sk : String) (lsi1sk : Option String) : Item :=
  let i1 := setAttr item "GSI1PK" (.S ("TYPE#" ++ item_type))
  let i2 := setAttr i1 "GSI1SK" (.S (pk ++ "#" ++ sk))
  setAttr i2 "LSI1SK" (.S (lsi1sk.getD sk))

/-- The string value of an attribute, when present and a string. -/
def attrS (it : Item) (k : String) : Option String :=
  match getAttr it k with
  | some (.S s) => some s
  | _ => none

/-- The numeric value of an attribute, when present and a number. -/
def attrN (it : Item) (k : String) : Option ℚ :=
  match getAttr it k with
  | some (.N q) => some q
  | _ => none

def typeIs (it : Item) (ty : String) : Bool := decide (getAttr it "type" = some (.S ty))

/-- The primary key (PK, SK) of an item, the key the batch writer and the
table deduplicate by. -/
def keyOf (it : Item) : Option String × Option String := (attrS it "PK", attrS it "SK")

/-- unit price × quantity of an invoice line item. -/
def lineAmount (it : Item) : ℚ := (attrN it "unit_price").getD 0 * (attrN it "quantity").getD 0

/-! ## Python `round` (banker's rounding) at two decimals -/

/-- Round to nearest integer, ties to even – the rounding `round()` applies. -/
def roundHalfEven (q : ℚ) : ℤ :=
  let f := ⌊q⌋
  let r := q - (f : ℚ)
  if r < 1/2 then f else if 1/2 < r then f + 1 else if 2 ∣ f then f else f + 1

/-- Python `round(x, 2)`. -/
def round2 (q : ℚ) : ℚ := (roundHalfEven (q * 100) : ℚ) / 100

/-! ## Seeding -/

/-- The six size parameters (Python ints; negative values are legal CLI input
and make the corresponding `range` empty). -/
structure Sizes where
  artists : Int
  albums_per_artist : Int
  tracks_per_album : Int
  customers : Int
  invoices_per_customer : Int
  lines_per_invoice : Int
deriving DecidableEq

/-- Python `range(a, b)`. -/
def pyRange (a b : Int) : List Int := (List.range (b - a).toNat).map (fun i => a + (i : Int))

/-- The state accumulated across `seed_data`: the random source state, the
three id pools, and the sequence of `put_item` calls issued so far. -/
structure SeedAcc (σ : Type) where
  rs : σ
  artist_ids : List String
  album_ids : List String
  track_ids : List String
  puts : List Item

/-- Body of the artists loop up to its `put_item`: draws the artist id and
fields and builds the artist item. Returns (item, artist_id, next state). -/
def artistItem {σ : Type} (E : PyEnv σ) (s : σ) : Item × String × σ :=
  let r1 := rand_id E "ARTIST" 8 s
  let artist_id := r1.1
  let r2 := randChoice E ARTIST_NAMES r1.2
  let r3 := randChoice E CITIES r2.2
  let r4 := randint E 1970 2020 r3.2
  let r5 := randint E 2 4 r4.2
  let r6 := randSample E INSTRUMENTS r5.1 r5.2
  let item : Item :=
    [("PK", .S artist_id), ("SK", .S artist_id), ("type", .S "Artist"),
     ("name", .S r2.1), ("city", .S r3.1), ("formed", .N (r4.1 : ℚ)),
     ("members", .L r6.1)]
  let artist_lsi := "PROFILE#" ++ r2.1
  (add_index_keys item "Artist" artist_id artist_id (some artist_lsi), artist_id, r6.2)

/-- Body of the albums loop up to its `put_item`. -/
def albumItem {σ : Type} (E : PyEnv σ) (artist_id : String) (s : σ) : Item × String × σ :=
  let r1 := rand_id E "ALBUM" 8 s
  let album_id := r1.1
  let r2 := rand_title E r1.2
  let r3 := randint E 1995 2024 r2.2
  let r4 := randChoice E GENRES r3.2
  let item : Item :=
    [("PK", .S artist_id), ("SK", .S album_id), ("type", .S "Album"),
     ("album_id", .S album_id), ("title", .S r2.1), ("year", .N (r3.1 : ℚ)),
     ("genre", .S r4.1)]
  let album_lsi := "ALBUM#" ++ zfill 4 (toString r3.1) ++ "#" ++ album_id
  (add_index_keys item "Album" artist_id album_id (some album_lsi), album_id, r4.2)

/-- Body of the tracks loop up to its `put_item`. -/
def trackItem {σ : Type} (E : PyEnv σ) (album_id : String) (s : σ) : Item × String × σ :=
  let r1 := rand_id E "TRACK" 8 s
  let track_id := r1.1
  let r2 := rand_track_name E r1.2
  let r3 := randint E 90000 360000 r2.2
  let r4 := randint E 512000 8000000 r3.2
  let r5 := rand_price_cents E r4.2
  let price : ℚ := (r5.1 : ℚ) / 100
  let item : Item :=
    [("PK", .S album_id), ("SK", .S track_id), ("type", .S "Track"),
     ("track_id", .S track_id), ("name", .S r2.1),
     ("milliseconds", .N (r3.1 : ℚ)), ("bytes", .N (r4.1 : ℚ)),
     ("unit_price", .N price)]
  let track_lsi := "TRACK#" ++ r2.1 ++ "#" ++ track_id
  (add_index_keys item "Track" album_id track_id (some track_lsi), track_id, r5.2)

/-- One iteration of the tracks loop. -/
def seedTrackIter {σ : Type} (E : PyEnv σ) (album_id : String) (a : SeedAcc σ) : SeedAcc σ :=
  let r := trackItem E album_id a.rs
  { rs := r.2.2, artist_ids := a.artist_ids, album_ids := a.album_ids,
    track_ids := a.track_ids ++ [r.2.1], puts := a.puts ++ [r.1] }

/-- One iteration of the albums loop (album item plus its nested tracks). -/
def seedAlbumIter {σ : Type} (E : PyEnv σ) (sz : Sizes) (artist_id : String) (a : SeedAcc σ) :
    SeedAcc σ :=
  let r := albumItem E artist_id a.rs
  let a1 : SeedAcc σ :=
    { rs := r.2.2, artist_ids := a.artist_ids, album_ids := a.album_ids ++ [r.2.1],
      track_ids := a.track_ids, puts := a.puts ++ [r.1] }
  (pyRange 0 sz.tracks_per_album).foldl (fun acc _ => seedTrackIter E r.2.1 acc) a1

/-- One iteration of the artists loop (artist item plus nested albums/tracks). -/
def seedArtistIter {σ : Type} (E : PyEnv σ) (sz : Sizes) (a : SeedAcc σ) : SeedAcc σ :=
  let r := artistItem E a.rs
  let a1 : SeedAcc σ :=
    { rs := r.2.2, artist_ids := a.artist_ids ++ [r.2.1], album_ids := a.album_ids,
      track_ids := a.track_ids, puts := a.puts ++ [r.1] }
  (pyRange 0 sz.albums_per_artist).foldl (fun acc _ => seedAlbumIter E sz r.2.1 acc) a1

/-- Body of the invoice-lines loop: one line item and its `price * qty`
contribution to the running total. -/
def seedLine {σ : Type} (E : PyEnv σ) (track_ids : List String) (inv_id : String)
    (line_ix : Int) (s : σ) : Item × ℚ × σ :=
  let rtrk := if track_ids.isEmpty then rand_id E "TRACK" 8 s else randChoice E track_ids s
  let trk := rtrk.1
  let rp := rand_price_cents E rtrk.2
  let price : ℚ := (rp.1 : ℚ) / 100
  let rq := randint E 1 3 rp.2
  let amount : ℚ := price * (rq.1 : ℚ)
  let price_cents := rp.1
  let item : Item :=
    [("PK", .S inv_id), ("SK", .S ("LINE#" ++ toString line_ix)), ("type", .S "InvoiceLine"),
     ("track_id", .S trk), ("unit_price", .N price), ("quantity", .N (rq.1 : ℚ))]
  let line_lsi := "PRICE#" ++ zfill 5 (toString price_cents) ++ "#LINE#" ++ zfill 3 (toString line_ix)
  (add_index_keys item "InvoiceLine" inv_id ("LINE#" ++ toString line_ix) (some line_lsi),
   amount, rq.2)

/-- Fold step for the invoice-lines loop: appends the line item and adds its
amount to the running `total`. -/
def seedLineStep {σ : Type} (E : PyEnv σ) (track_ids : List String) (inv_id : String)
    (acc : List Item × ℚ × σ) (line_ix : Int) : List Item × ℚ × σ :=
  let r := seedLine E track_ids inv_id line_ix acc.2.2
  (acc.1 ++ [r.1], acc.2.1 + r.2.1, r.2.2)

/-- One iteration of the invoices loop: the initial invoice insert, the line
items, and the final upsert carrying `total = Decimal(str(round(total, 2)))`.
Returns the `put_item` sequence of this invoice and the next state. -/
def seedInvoice {σ : Type} (E : PyEnv σ) (track_ids : List String) (cust_id : String)
    (lines_per_invoice : Int) (s : σ) : List Item × σ :=
  let r1 := rand_id E "INVOICE" 8 s
  let inv_id := r1.1
  let r2 := E.now r1.2
  let r3 := randint E 0 365 r2.2
  let ts : Nat := r2.1 - 86400 * r3.1
  let invoice_lsi := "INVOICE#" ++ zfill 10 (toString ts) ++ "#" ++ inv_id
  let item0 : Item :=
    [("PK", .S cust_id), ("SK", .S inv_id), ("type", .S "Invoice"),
     ("invoice_id", .S inv_id), ("ts", .N (ts : ℚ))]
  let item0 := add_index_keys item0 "Invoice" cust_id inv_id (some invoice_lsi)
  let fl := (pyRange 1 (lines_per_invoice + 1)).foldl (seedLineStep E track_ids inv_id)
    ([], 0, r3.2)
  let itemU : Item :=
    [("PK", .S cust_id), ("SK", .S inv_id), ("type", .S "Invoice"),
     ("invoice_id", .S inv_id), ("ts", .N (ts : ℚ)), ("total", .N (round2 fl.2.1))]
  let itemU := add_index_keys itemU "Invoice" cust_id inv_id (some invoice_lsi)
  (item0 :: (fl.1 ++ [itemU]), fl.2.2)

/-- Body of the customers loop up to its `put_item`. -/
def customerItem {σ : Type} (E : PyEnv σ) (s : σ) : Item × String × σ :=
  let r1 := rand_id E "CUSTOMER" 8 s
  let cust_id := r1.1
  let r2 := rand_name E r1.2
  let name := r2.1
  let r3 := rand_email E name r2.2
  let r4 := randChoice E CITIES r3.2
  let item : Item :=
    [("PK", .S cust_id), ("SK", .S "PROFILE"), ("type", .S "Customer"),
     ("name", .S name), ("email", .S r3.1), ("city", .S r4.1)]
  (add_index_keys item "Customer" cust_id "PROFILE" (some ("PROFILE#" ++ name)), cust_id, r4.2)

/-- One iteration of the invoices loop, at the accumulator level. -/
def seedInvoiceIter {σ : Type} (E : PyEnv σ) (cust_id : String) (lines_per_invoice : Int)
    (acc : SeedAcc σ) : SeedAcc σ :=
  let r := seedInvoice E acc.track_ids cust_id lines_per_invoice acc.rs
  { rs := r.2, artist_ids := acc.artist_ids, album_ids := acc.album_ids,
    track_ids := acc.track_ids, puts := acc.puts ++ r.1 }

/-- One iteration of the customers loop (profile item plus nested invoices). -/
def seedCustomerIter {σ : Type} (E : PyEnv σ) (sz : Sizes) (a : SeedAcc σ) : SeedAcc σ :=
  let r := customerItem E a.rs
  let a1 : SeedAcc σ :=
    { rs := r.2.2, artist_ids := a.artist_ids, album_ids := a.album_ids,
      track_ids := a.track_ids, puts := a.puts ++ [r.1] }
  (pyRange 0 sz.invoices_per_customer).foldl
    (fun acc _ => seedInvoiceIter E r.2.1 sz.lines_per_invoice acc) a1

/-- Port of `seed_data(table, sizes)`: the artists section followed by the customers
section; `puts` is the full sequence of `put_item` calls issued to the batch
writer. -/
def seed_data {σ : Type} (E : PyEnv σ) (sz : Sizes) (s : σ) : SeedAcc σ :=
  let a0 : SeedAcc σ := ⟨s, [], [], [], []⟩
  let a1 := (pyRange 0 sz.artists).foldl (fun a _ => seedArtistIter E sz a) a0
  (pyRange 0 sz.customers).foldl (fun a _ => seedCustomerIter E sz a) a1

/-! ## Table schema model -/

/-- A secondary index as reported by `describe_table`: its name and its
`KeySchema` as a list of (AttributeName, KeyType) entries. -/
structure IndexDesc where
  indexName : String
  keySchema : List (String × String)
deriving DecidableEq

/-- A table description: status, attribute definitions, key schema, billing
mode and the two index lists. -/
structure TableDesc where
  status : String
  attributeDefinitions : List (String × String)
  keySchema : List (String × String)
  gsis : List IndexDesc
  lsis : List IndexDesc
  billingMode : String
deriving DecidableEq

/-- Python dict update `d[k] = v` on a string-to-string dict. -/
def dictSet : List (String × String) → String → String → List (String × String)
  | [], k, v => [(k, v)]
  | (k0, v0) :: rest, k, v => if k0 = k then (k, v) :: rest else (k0, v0) :: dictSet rest k v

def dictGet : List (String × String) → String → Option String
  | [], _ => none
  | (k0, v0) :: rest, k => if k0 = k then some v0 else dictGet rest k

/-- Python dict equality: same keys, equal values. -/
def dictEqv (d1 d2 : List (String × String)) : Bool :=
  d1.all (fun kv => dictGet d2 kv.1 == some kv.2) && d2.all (fun kv => dictGet d1 kv.1 == some kv.2)

/-- Port of `index_key_schema(index)`: the dict from KeyType to AttributeName. -/
def index_key_schema (ix : IndexDesc) : List (String × String) :=
  ix.keySchema.foldl (fun d k => dictSet d k.2 k.1) []

/-- Port of `missing_indexes(desc)`: GSI1 and/or LSI1, when absent or carrying the
wrong key schema.  Python's dict comprehension keeps the last entry per
index name, hence the `getLast?` of the name filter. -/
def missing_indexes (t : TableDesc) : List String :=
  let gsi1 := (t.gsis.filter (fun g => g.indexName == "GSI1")).getLast?
  let lsi1 := (t.lsis.filter (fun l => l.indexName == "LSI1")).getLast?
  let m1 : List String :=
    match gsi1 with
    | none => ["GSI1"]
    | some g =>
      if dictEqv (index_key_schema g) [("HASH", "GSI1PK"), ("RANGE", "GSI1SK")] then []
      else ["GSI1"]
  let m2 : List String :=
    match lsi1 with
    | none => ["LSI1"]
    | some l =>
      if dictEqv (index_key_schema l) [("HASH", "PK"), ("RANGE", "LSI1SK")] then []
      else ["LSI1"]
  m1 ++ m2

/-- The table `create_table` asks for (the sync model reports it ACTIVE). -/
def createdDesc : TableDesc :=
  { status := "ACTIVE",
    attributeDefinitions :=
      [("PK", "S"), ("SK", "S"), ("GSI1PK", "S"), ("GSI1SK", "S"), ("LSI1SK", "S")],
    keySchema := [("PK", "HASH"), ("SK", "RANGE")],
    gsis := [⟨"GSI1", [("GSI1PK", "HASH"), ("GSI1SK", "RANGE")]⟩],
    lsis := [⟨"LSI1", [("PK", "HASH"), ("LSI1SK", "RANGE")]⟩],
    billingMode := "PAY_PER_REQUEST" }

/-! ## Waiting loops -/

/-- Outcome of one `describe_table` call: a table status, or a `ClientError`
with an error code. -/
inductive DescribeResp
  | ok (status : String)
  | clientError (code : String)
deriving DecidableEq

/-- Errors surfacing from provisioning: a re-raised `ClientError`, the
`RuntimeError` for missing indexes, or a `TimeoutError`. -/
inductive SeedErr
  | clientError (code : String)
  | runtimeError (msg : String)
  | timedOut (msg : String)
deriving DecidableEq

/-- Port of `wait_table_active(dynamo, table_name, timeout_s)`: each loop iteration
consumes one (describe response, `time.time()` observation) pair; `none`
means the supplied observation list ended while the loop was still polling. -/
def wait_table_active (table_name : String) (timeout_s start : ℚ) :
    List (DescribeResp × ℚ) → Option (Except SeedErr Unit)
  | [] => none
  | (resp, t) :: rest =>
    match resp with
    | .ok status =>
      if status = "ACTIVE" then some (.ok ())
      else if t - start > timeout_s then
        some (.error (.timedOut ("Table " ++ table_name ++ " not ACTIVE after " ++
          toString timeout_s ++ "s")))
      else wait_table_active table_name timeout_s start rest
    | .clientError code =>
      if code ≠ "ResourceNotFoundException" then some (.error (.clientError code))
      else if t - start > timeout_s then
        some (.error (.timedOut ("Table " ++ table_name ++ " not ACTIVE after " ++
          toString timeout_s ++ "s")))
      else wait_table_active table_name timeout_s start rest

/-- Port of `wait_deleted(dynamo, table_name, timeout_s)`. -/
def wait_deleted (table_name : String) (timeout_s start : ℚ) :
    List (DescribeResp × ℚ) → Option (Except SeedErr Unit)
  | [] => none
  | (resp, t) :: rest =>
    match resp with
    | .ok _ =>
      if t - start > timeout_s then
        some (.error (.timedOut ("Table " ++ table_name ++ " not deleted after " ++
          toString timeout_s ++ "s")))
      else wait_deleted table_name timeout_s start rest
    | .clientError code =>
      if code = "ResourceNotFoundException" then some (.ok ())
      else some (.error (.clientError code))

/-- What `describe_table` answers for a given service state. -/
def describeResp (tbl : Option TableDesc) : DescribeResp :=
  match tbl with
  | some d => .ok d.status
  | none => .clientError "ResourceNotFoundException"

/-- The polls a stable service produces: the same description at time 0 and
just past the deadline.  Any polling loop resolves on these two. -/
def stablePolls (tbl : Option TableDesc) : List (DescribeResp × ℚ) :=
  [(describeResp tbl, 0), (describeResp tbl, 61)]

/-- Running `wait_table_active` against a stable service state. -/
def waitActiveStable (table_name : String) (tbl : Option TableDesc) : Except SeedErr Unit :=
  (wait_table_active table_name 60 0 (stablePolls tbl)).getD
    (.error (.timedOut ("Table " ++ table_name ++ " not ACTIVE after 60s")))

/-- Running `wait_deleted` against a stable service state. -/
def waitDeletedStable (table_name : String) (tbl : Option TableDesc) : Except SeedErr Unit :=
  (wait_deleted table_name 60 0 (stablePolls tbl)).getD
    (.error (.timedOut ("Table " ++ table_name ++ " not deleted after 60s")))

/-! ## Database state, `ensure_table` and `main` -/

/-- The service state seen by one run: the (single) table and its items. -/
structure DBState where
  tbl : Option TableDesc
  items : List Item
deriving DecidableEq

/-- Control-plane calls issued by `ensure_table`, in order. -/
inductive TableOp
  | deleteTable
  | waitDeleted
  | createTable (d : TableDesc)
  | waitActive
deriving DecidableEq

structure EnsureOut where
  db : DBState
  existed : Bool
  trace : List TableOp
deriving DecidableEq

/-- Port of `ensure_table(dynamo, table_name, recreate, recreate_if_missing_indexes)`
against a stable service: `describe_table` reflects `db0.tbl`, `delete_table`
drops the table with its items, `create_table` installs `createdDesc`. -/
def ensure_table (table_name : String) (db0 : DBState)
    (recreate recreate_if_missing_indexes : Bool) : Except SeedErr EnsureOut :=
  let step1 : Except SeedErr (DBState × Bool × List TableOp) :=
    match db0.tbl, recreate with
    | some d, false =>
      if missing_indexes d = [] then .ok (db0, true, [])
      else if recreate_if_missing_indexes then
        .ok (⟨none, []⟩, false, [.deleteTable, .waitDeleted])
      else
        .error (.runtimeError ("Existing table " ++ table_name ++ " missing indexes: " ++
          String.intercalate ", " (missing_indexes d) ++
          ". Re-run with --recreate (or --recreate-if-missing-indexes)."))
    | _, _ => .ok (db0, db0.tbl.isSome, [])
  match step1 with
  | .error e => .error e
  | .ok (db1, ex, tr1) =>
    let p2 : DBState × List TableOp :=
      if ex && recreate then (⟨none, []⟩, [.deleteTable, .waitDeleted]) else (db1, [])
    let p3 : DBState × List TableOp :=
      if !ex || recreate then (⟨some createdDesc, []⟩, [.createTable createdDesc]) else (p2.1, [])
    match waitActiveStable table_name p3.1.tbl with
    | .error e => .error e
    | .ok _ => .ok ⟨p3.1, ex, tr1 ++ p2.2 ++ p3.2 ++ [.waitActive]⟩

/-- The CLI arguments relevant to behaviour. -/
structure Args where
  table : String
  recreate : Bool
  recreate_if_missing_indexes : Bool
  skip_if_exists : Bool
  artists : Int
  albums_per_artist : Int
  tracks_per_album : Int
  customers : Int
  invoices_per_customer : Int
  lines_per_invoice : Int
deriving DecidableEq

def Args.sizes (a : Args) : Sizes :=
  ⟨a.artists, a.albums_per_artist, a.tracks_per_album, a.customers,
   a.invoices_per_customer, a.lines_per_invoice⟩

/-- The `put_item` semantics on the table: overwrite by primary key. -/
def putItem (tbl : List Item) (it : Item) : List Item :=
  (tbl.filter (fun o => decide (keyOf o ≠ keyOf it))) ++ [it]

def applyPuts (tbl : List Item) (ps : List Item) : List Item := ps.foldl putItem tbl

/-- The distinct records a `put_item` sequence leaves in an empty table. -/
def finalRecords (ps : List Item) : List Item := applyPuts [] ps

def countType (ps : List Item) (ty : String) : Nat :=
  (ps.filter (fun it => typeIs it ty)).length

/-- Outcome of one `main()` invocation: the exit code, the `put_item` calls
issued, and the resulting service state. -/
structure RunResult where
  exitCode : Nat
  puts : List Item
  db : DBState
deriving DecidableEq

/-- Port of `main()`: provision (exit 1 printing the error on failure), honour
`--skip-if-exists`, otherwise seed. -/
def runMain {σ : Type} (E : PyEnv σ) (s : σ) (a : Args) (db0 : DBState) : RunResult :=
  match ensure_table a.table db0 a.recreate a.recreate_if_missing_indexes with
  | .error _ => ⟨1, [], db0⟩
  | .ok out =>
    if out.existed && a.skip_if_exists && !a.recreate then ⟨0, [], out.db⟩
    else
      let r := seed_data E a.sizes s
      ⟨0, r.puts, ⟨out.db.tbl, applyPuts out.db.items r.puts⟩⟩

/-! ## Concrete environments (used by witnesses and counterexamples) -/

/-- Degenerate environment always picking index 0: every `rand_id` call of a
given kind yields the same id. -/
def constEnv : PyEnv Unit where
  pick := fun _ _ => (0, ())
  now := fun _ => (1700000000, ())
  pickOk := fun _ _ h => h

/-- Counting environment: pick `s % n` and advance; distinct draws see
distinct counter values. -/
def counterEnv : PyEnv Nat where
  pick := fun s n => (s % n, s + 1)
  now := fun s => (1700000000, s)
  pickOk := fun s _ h => Nat.mod_lt s h

/-! ## Id extraction (for stating id-collision hypotheses) -/

/-- Customer ids, read off the put sequence. -/
def customerIds (ps : List Item) : List String :=
  (ps.filter (fun it => typeIs it "Customer")).filterMap (fun it => attrS it "PK")

/-- Invoice ids, read off the put sequence (deduplicated: each invoice is put
twice). -/
def invoiceIds (ps : List Item) : List String :=
  ((ps.filter (fun it => typeIs it "Invoice")).filterMap (fun it => attrS it "SK")).dedup

/-- Every random id generated during a run. -/
def generatedIds {σ : Type} (r : SeedAcc σ) : List String :=
  r.artist_ids ++ r.album_ids ++ r.track_ids ++ customerIds r.puts ++ invoiceIds r.puts

/-! ## General helper lemmas -/

lemma randChoices_length {σ α : Type} [Inhabited α] (E : PyEnv σ) (xs : List α) (k : Nat) (s : σ) :
    ((randChoices E xs k s).1).length = k := by
  induction k generalizing s with
  | zero => rfl
  | succ k ih => simp [randChoices, ih]

lemma rand_id_length {σ : Type} (E : PyEnv σ) (pre : String) (n : Nat) (s : σ) :
    ((rand_id E pre n s).1).length = pre.length + 1 + n := by
  show (pre ++ "#" ++ String.mk (randChoices E ID_CHARS n s).1).length = pre.length + 1 + n
  rw [String.length_append, String.length_append]
  show pre.length + 1 + ((randChoices E ID_CHARS n s).1).length = pre.length + 1 + n
  rw [randChoices_length]

lemma getAttr_setAttr_self (it : Item) (k : String) (v : AttrVal) :
    getAttr (setAttr it k v) k = some v := by
  induction it with
  | nil => simp [setAttr, getAttr]
  | cons kv rest ih =>
    by_cases h : kv.1 = k
    · simp [setAttr, h, getAttr]
    · simp [setAttr, h, getAttr, ih]

/-! ## C9: bounded waits, resource-not-found as expected signal -/

/-- C9: every wait on a table state transition is bounded: once an
observation time exceeds `start + 60` without the expected state, the loop
raises a timeout error; a `ResourceNotFoundException` during polling is an
expected signal — `wait_deleted` returns successfully on it, and
`wait_table_active` keeps polling instead of failing (and returns as soon as
a poll reports ACTIVE). -/
theorem c9_wait_bounded (tn : String) (start t : ℚ) (status : String)
    (rest : List (DescribeResp × ℚ)) :
    (wait_table_active tn 60 start ((DescribeResp.clientError "ResourceNotFoundException", t) :: rest)
      = if t - start > 60 then
          some (.error (.timedOut ("Table " ++ tn ++ " not ACTIVE after " ++ toString (60 : ℚ) ++ "s")))
        else wait_table_active tn 60 start rest)
  ∧ (status ≠ "ACTIVE" →
      wait_table_active tn 60 start ((DescribeResp.ok status, t) :: rest)
      = if t - start > 60 then
          some (.error (.timedOut ("Table " ++ tn ++ " not ACTIVE after " ++ toString (60 : ℚ) ++ "s")))
        else wait_table_active tn 60 start rest)
  ∧ (wait_table_active tn 60 start ((DescribeResp.ok "ACTIVE", t) :: rest) = some (.ok ()))
  ∧ (wait_deleted tn 60 start ((DescribeResp.clientError "ResourceNotFoundException", t) :: rest)
      = some (.ok ()))
  ∧ (wait_deleted tn 60 start ((DescribeResp.ok status, t) :: rest)
      = if t - start > 60 then
          some (.error (.timedOut ("Table " ++ tn ++ " not deleted after " ++ toString (60 : ℚ) ++ "s")))
        else wait_deleted tn 60 start rest) := by
  refine ⟨?_, ?_, ?_, ?_, ?_⟩
  · simp [wait_table_active]
  · intro h
    simp [wait_table_active, h]
  · simp [wait_table_active]
  · simp [wait_deleted]
  · simp [wait_deleted]

theorem c9_witness :
    wait_table_active "t" 60 0 [(DescribeResp.ok "CREATING", 61)]
      = if (61 : ℚ) - 0 > 60 then
          some (.error (.timedOut ("Table " ++ "t" ++ " not ACTIVE after " ++ toString (60 : ℚ) ++ "s")))
        else wait_table_active "t" 60 0 [] :=
  (c9_wait_bounded "t" 0 61 "CREATING" []).2.1 (by decide)

/-! ## C3: recreate drops the table first, then creates it with both indexes -/

/-- C3: with `recreate=true` and an existing table, the table is deleted and
its deletion awaited before the new table is created, and the create request
carries exactly the two secondary indexes GSI1 (GSI1PK hash, GSI1SK range)
and LSI1 (PK hash, LSI1SK range). -/
theorem c3_recreate_order (tn : String) (db0 : DBState) (d : TableDesc)
    (h : db0.tbl = some d) :
    (∀ rimi : Bool, ensure_table tn db0 true rimi
      = .ok ⟨⟨some createdDesc, []⟩, true,
            [.deleteTable, .waitDeleted, .createTable createdDesc, .waitActive]⟩)
  ∧ createdDesc.gsis = [⟨"GSI1", [("GSI1PK", "HASH"), ("GSI1SK", "RANGE")]⟩]
  ∧ createdDesc.lsis = [⟨"LSI1", [("PK", "HASH"), ("LSI1SK", "RANGE")]⟩] := by
  obtain ⟨tbl, items⟩ := db0
  cases h
  exact ⟨fun _ => rfl, rfl, rfl⟩

theorem c3_witness :
    (∀ rimi : Bool, ensure_table "t" ⟨some createdDesc, []⟩ true rimi
      = .ok ⟨⟨some createdDesc, []⟩, true,
            [.deleteTable, .waitDeleted, .createTable createdDesc, .waitActive]⟩)
  ∧ createdDesc.gsis = [⟨"GSI1", [("GSI1PK", "HASH"), ("GSI1SK", "RANGE")]⟩]
  ∧ createdDesc.lsis = [⟨"LSI1", [("PK", "HASH"), ("LSI1SK", "RANGE")]⟩] :=
  c3_recreate_order "t" ⟨some createdDesc, []⟩ createdDesc rfl

/-! ## C1: missing index with recreate=false -/

/-- A table carrying no secondary indexes at all (so both GSI1 and LSI1 are
missing). -/
def tableNoIndexes : TableDesc :=
  { status := "ACTIVE", attributeDefinitions := [("PK", "S"), ("SK", "S")],
    keySchema := [("PK", "HASH"), ("SK", "RANGE")], gsis := [], lsis := [],
    billingMode := "PAY_PER_REQUEST" }

/-- A run with `recreate=false` but `recreate-if-missing-indexes=true`. -/
def argsRimi : Args := ⟨"t", false, true, false, 1, 1, 1, 1, 1, 1⟩

/-- C1 counterexample: the claim quantifies over every run with
`recreate=false` against an existing table missing an index, but a run that
additionally passes `--recreate-if-missing-indexes` recreates the table,
seeds it, and exits 0 — it neither exits non-zero nor refrains from writing. -/
theorem c1_counterexample :
    missing_indexes tableNoIndexes ≠ [] ∧ argsRimi.recreate = false ∧
    (runMain constEnv () argsRimi ⟨some tableNoIndexes, []⟩).exitCode = 0 ∧
    (runMain constEnv () argsRimi ⟨some tableNoIndexes, []⟩).puts ≠ [] := by
  exact ⟨by decide, rfl, by decide, by decide⟩

/-- C1 (amended): if the table exists, `recreate` is false,
`recreate-if-missing-indexes` is also false, and the table is missing GSI1 or
LSI1 (wrong name or wrong key schema, i.e. `missing_indexes` is nonempty),
the process exits 1 having issued no `put_item` calls and leaving the service
state untouched. -/
theorem c1_missing_index_aborts {σ : Type} (E : PyEnv σ) (s : σ) (a : Args)
    (d : TableDesc) (items0 : List Item)
    (h1 : a.recreate = false) (h2 : a.recreate_if_missing_indexes = false)
    (h3 : missing_indexes d ≠ []) :
    (runMain E s a ⟨some d, items0⟩).exitCode = 1 ∧
    (runMain E s a ⟨some d, items0⟩).puts = [] ∧
    (runMain E s a ⟨some d, items0⟩).db = ⟨some d, items0⟩ := by
  rcases hE : ensure_table a.table ⟨some d, items0⟩ a.recreate a.recreate_if_missing_indexes
    with e | out
  · simp [runMain, hE]
  · exfalso
    rw [h1, h2] at hE
    simp [ensure_table, h3] at hE

/-- A run with all three policy flags off. -/
def argsPlain : Args := ⟨"t", false, false, false, 1, 1, 1, 1, 1, 1⟩

theorem c1_witness :
    (runMain constEnv () argsPlain ⟨some tableNoIndexes, []⟩).exitCode = 1 ∧
    (runMain constEnv () argsPlain ⟨some tableNoIndexes, []⟩).puts = [] ∧
    (runMain constEnv () argsPlain ⟨some tableNoIndexes, []⟩).db = ⟨some tableNoIndexes, []⟩ :=
  c1_missing_index_aborts constEnv () argsPlain tableNoIndexes [] rfl rfl (by decide)

/-! ## C5: skip-if-exists performs no writes on the second run -/

lemma waitActiveStable_ok {tn : String} {tbl : Option TableDesc} {u : Unit}
    (h : waitActiveStable tn tbl = .ok u) :
    ∃ d, tbl = some d ∧ d.status = "ACTIVE" := by
  cases tbl with
  | none =>
    exfalso
    norm_num [waitActiveStable, stablePolls, describeResp, wait_table_active] at h
    exact Except.noConfusion h
  | some d =>
    by_cases hs : d.status = "ACTIVE"
    · exact ⟨d, rfl, hs⟩
    · exfalso
      norm_num [waitActiveStable, stablePolls, describeResp, wait_table_active, hs] at h
      exact Except.noConfusion h

/-- Whenever `ensure_table` succeeds, the resulting table exists, is ACTIVE,
and carries both required indexes. -/
lemma ensure_table_ok_shape {tn : String} {db0 : DBState} {rec rimi : Bool} {out : EnsureOut}
    (h : ensure_table tn db0 rec rimi = .ok out) :
    ∃ d, out.db.tbl = some d ∧ missing_indexes d = [] ∧ d.status = "ACTIVE" := by
  obtain ⟨tbl, items⟩ := db0
  cases rec with
  | true =>
    cases tbl with
    | none =>
      rw [show ensure_table tn ⟨none, items⟩ true rimi =
            .ok ⟨⟨some createdDesc, []⟩, false, [.createTable createdDesc, .waitActive]⟩ from rfl] at h
      obtain rfl : (⟨⟨some createdDesc, []⟩, false, [.createTable createdDesc, .waitActive]⟩ : EnsureOut) = out :=
        by exact Except.ok.inj h
      exact ⟨createdDesc, rfl, by decide, rfl⟩
    | some d =>
      rw [show ensure_table tn ⟨some d, items⟩ true rimi =
            .ok ⟨⟨some createdDesc, []⟩, true,
              [.deleteTable, .waitDeleted, .createTable createdDesc, .waitActive]⟩ from rfl] at h
      obtain rfl : (⟨⟨some createdDesc, []⟩, true,
          [.deleteTable, .waitDeleted, .createTable createdDesc, .waitActive]⟩ : EnsureOut) = out :=
        by exact Except.ok.inj h
      exact ⟨createdDesc, rfl, by decide, rfl⟩
  | false =>
    cases tbl with
    | none =>
      rw [show ensure_table tn ⟨none, items⟩ false rimi =
            .ok ⟨⟨some createdDesc, []⟩, false, [.createTable createdDesc, .waitActive]⟩ from rfl] at h
      obtain rfl : (⟨⟨some createdDesc, []⟩, false, [.createTable createdDesc, .waitActive]⟩ : EnsureOut) = out :=
        by exact Except.ok.inj h
      exact ⟨createdDesc, rfl, by decide, rfl⟩
    | some d =>
      by_cases hm : missing_indexes d = []
      · by_cases hs : d.status = "ACTIVE"
        · have : ensure_table tn ⟨some d, items⟩ false rimi =
              .ok ⟨⟨some d, items⟩, true, [.waitActive]⟩ := by
            simp [ensure_table, hm, waitActiveStable, stablePolls, describeResp,
              wait_table_active, hs]
          rw [this] at h
          obtain rfl : (⟨⟨some d, items⟩, true, [.waitActive]⟩ : EnsureOut) = out :=
            by exact Except.ok.inj h
          exact ⟨d, rfl, hm, hs⟩
        · exfalso
          have : ensure_table tn ⟨some d, items⟩ false rimi =
              .error (.timedOut ("Table " ++ tn ++ " not ACTIVE after " ++ toString (60 : ℚ) ++ "s")) := by
            norm_num [ensure_table, hm, waitActiveStable, stablePolls, describeResp,
              wait_table_active, hs]
          rw [this] at h
          exact Except.noConfusion h
      · cases hrimi : rimi with
        | true =>
          have : ensure_table tn ⟨some d, items⟩ false true =
              .ok ⟨⟨some createdDesc, []⟩, false,
                [.deleteTable, .waitDeleted, .createTable createdDesc, .waitActive]⟩ := by
            simp [ensure_table, hm, waitActiveStable, stablePolls, describeResp,
              wait_table_active, createdDesc]
          rw [hrimi, this] at h
          obtain rfl : (⟨⟨some createdDesc, []⟩, false,
              [.deleteTable, .waitDeleted, .createTable createdDesc, .waitActive]⟩ : EnsureOut) = out :=
            by exact Except.ok.inj h
          exact ⟨createdDesc, rfl, by decide, rfl⟩
        | false =>
          exfalso
          rw [hrimi] at h
          simp [ensure_table, hm] at h

/-- A run that exists with both indexes and ACTIVE status sails through
`ensure_table` untouched. -/
lemma ensure_table_existing_ok {tn : String} {db : DBState} {d : TableDesc} (rimi : Bool)
    (hd : db.tbl = some d) (hm : missing_indexes d = []) (hs : d.status = "ACTIVE") :
    ensure_table tn db false rimi = .ok ⟨db, true, [.waitActive]⟩ := by
  obtain ⟨tbl, items⟩ := db
  obtain rfl : tbl = some d := hd
  simp [ensure_table, hm, waitActiveStable, stablePolls, describeResp, wait_table_active, hs]

/-- C5: if a first run exits 0, a second run against the resulting service
state with `skip-if-exists` set and `recreate` unset exits 0, issues no
`put_item` calls, and leaves both the table and its contents unchanged. -/
theorem c5_skip_second_run {σ1 σ2 : Type} (E1 : PyEnv σ1) (E2 : PyEnv σ2) (s1 : σ1) (s2 : σ2)
    (a1 a2 : Args) (db0 : DBState)
    (h0 : (runMain E1 s1 a1 db0).exitCode = 0)
    (hskip : a2.skip_if_exists = true) (hrec : a2.recreate = false) :
    (runMain E2 s2 a2 (runMain E1 s1 a1 db0).db).exitCode = 0 ∧
    (runMain E2 s2 a2 (runMain E1 s1 a1 db0).db).puts = [] ∧
    (runMain E2 s2 a2 (runMain E1 s1 a1 db0).db).db = (runMain E1 s1 a1 db0).db := by
  rcases hE1 : ensure_table a1.table db0 a1.recreate a1.recreate_if_missing_indexes with e | out
  · exfalso
    simp [runMain, hE1] at h0
  · obtain ⟨d, hd, hm, hs⟩ := ensure_table_ok_shape hE1
    set r1 := runMain E1 s1 a1 db0 with hr1
    have hdb1 : r1.db.tbl = some d := by
      rw [hr1]
      simp only [runMain, hE1]
      split
      · exact hd
      · exact hd
    have hE2 : ensure_table a2.table r1.db a2.recreate a2.recreate_if_missing_indexes =
        .ok ⟨r1.db, true, [.waitActive]⟩ := by
      rw [hrec]
      exact ensure_table_existing_ok _ hdb1 hm hs
    simp only [runMain, hE2]
    simp [hskip, hrec]

/-- A run with only `skip-if-exists` set. -/
def argsSkip : Args := ⟨"t", false, false, true, 1, 1, 1, 1, 1, 1⟩

theorem c5_witness :
    (runMain counterEnv 0 argsSkip (runMain constEnv () argsPlain ⟨none, []⟩).db).exitCode = 0 ∧
    (runMain counterEnv 0 argsSkip (runMain constEnv () argsPlain ⟨none, []⟩).db).puts = [] ∧
    (runMain counterEnv 0 argsSkip (runMain constEnv () argsPlain ⟨none, []⟩).db).db
      = (runMain constEnv () argsPlain ⟨none, []⟩).db :=
  c5_skip_second_run constEnv counterEnv () 0 argsPlain argsSkip ⟨none, []⟩ (by decide) rfl rfl

/-! ## C7: index projection attributes of artist, album and track items -/

/-- C7: for every generated artist, album and track item, GSI1PK is
`TYPE#` followed by the type tag, GSI1SK is `PK#SK`, and LSI1SK is the
declared type-specific sort value (`PROFILE#name` for artists,
`ALBUM#<year:04d>#<album_id>` for albums, `TRACK#<name>#<track_id>` for
tracks); when no sort value is declared, `add_index_keys` defaults LSI1SK to
SK. -/
theorem c7_index_attr_derivation {σ : Type} (E : PyEnv σ) (s : σ) (aid bid : String)
    (it : Item) (ty pk sk : String) :
    (∃ id nm, attrS (artistItem E s).1 "PK" = some id ∧ attrS (artistItem E s).1 "SK" = some id ∧
      attrS (artistItem E s).1 "type" = some "Artist" ∧ attrS (artistItem E s).1 "name" = some nm ∧
      attrS (artistItem E s).1 "GSI1PK" = some ("TYPE#" ++ "Artist") ∧
      attrS (artistItem E s).1 "GSI1SK" = some (id ++ "#" ++ id) ∧
      attrS (artistItem E s).1 "LSI1SK" = some ("PROFILE#" ++ nm))
  ∧ (∃ alid, ∃ yr : Nat, attrS (albumItem E aid s).1 "PK" = some aid ∧
      attrS (albumItem E aid s).1 "SK" = some alid ∧
      attrS (albumItem E aid s).1 "type" = some "Album" ∧
      attrN (albumItem E aid s).1 "year" = some (yr : ℚ) ∧
      attrS (albumItem E aid s).1 "GSI1PK" = some ("TYPE#" ++ "Album") ∧
      attrS (albumItem E aid s).1 "GSI1SK" = some (aid ++ "#" ++ alid) ∧
      attrS (albumItem E aid s).1 "LSI1SK" = some ("ALBUM#" ++ zfill 4 (toString yr) ++ "#" ++ alid))
  ∧ (∃ tid nm, attrS (trackItem E bid s).1 "PK" = some bid ∧
      attrS (trackItem E bid s).1 "SK" = some tid ∧
      attrS (trackItem E bid s).1 "type" = some "Track" ∧
      attrS (trackItem E bid s).1 "name" = some nm ∧
      attrS (trackItem E bid s).1 "GSI1PK" = some ("TYPE#" ++ "Track") ∧
      attrS (trackItem E bid s).1 "GSI1SK" = some (bid ++ "#" ++ tid) ∧
      attrS (trackItem E bid s).1 "LSI1SK" = some ("TRACK#" ++ nm ++ "#" ++ tid))
  ∧ attrS (add_index_keys it ty pk sk none) "LSI1SK" = some sk := by
  refine ⟨⟨_, _, rfl, rfl, rfl, rfl, rfl, rfl, rfl⟩,
          ⟨_, _, rfl, rfl, rfl, rfl, rfl, rfl, rfl⟩,
          ⟨_, _, rfl, rfl, rfl, rfl, rfl, rfl, rfl⟩, ?_⟩
  show attrS (setAttr _ "LSI1SK" (.S (Option.getD none sk))) "LSI1SK" = some sk
  simp [attrS, getAttr_setAttr_self]

/-! ## C6: the invoice upsert carries exactly the insert's index attributes -/

lemma getLast_cons_append {α : Type} (x y : α) (l : List α) :
    (x :: (l ++ [y])).getLast? = some y := by
  rw [← List.cons_append, List.getLast?_concat]

/-- The put sequence of one invoice iteration is the insert, the lines, and
the upsert, and insert and upsert agree on all three index attributes. -/
lemma seedInvoice_decomp {σ : Type} (E : PyEnv σ) (tids : List String) (cid : String)
    (n : Int) (s : σ) :
    ∃ it0 L itU s1,
      seedInvoice E tids cid n s = (it0 :: (L ++ [itU]), s1) ∧
      getAttr it0 "GSI1PK" = getAttr itU "GSI1PK" ∧
      getAttr it0 "GSI1SK" = getAttr itU "GSI1SK" ∧
      getAttr it0 "LSI1SK" = getAttr itU "LSI1SK" :=
  ⟨_, _, _, _, rfl, rfl, rfl, rfl⟩

/-- C6: within one invoice iteration, the final total-bearing upsert carries
the same GSI1PK, GSI1SK and LSI1SK as the invoice's initial insert — both
derive them from the same `cust_id`, `inv_id` and the `invoice_lsi` computed
once from the captured timestamp. -/
theorem c6_upsert_same_index_attrs {σ : Type} (E : PyEnv σ) (track_ids : List String)
    (cust_id : String) (n : Int) (s : σ) :
    ((seedInvoice E track_ids cust_id n s).1.head?.bind (fun it => getAttr it "GSI1PK")
      = (seedInvoice E track_ids cust_id n s).1.getLast?.bind (fun it => getAttr it "GSI1PK"))
  ∧ ((seedInvoice E track_ids cust_id n s).1.head?.bind (fun it => getAttr it "GSI1SK")
      = (seedInvoice E track_ids cust_id n s).1.getLast?.bind (fun it => getAttr it "GSI1SK"))
  ∧ ((seedInvoice E track_ids cust_id n s).1.head?.bind (fun it => getAttr it "LSI1SK")
      = (seedInvoice E track_ids cust_id n s).1.getLast?.bind (fun it => getAttr it "LSI1SK")) := by
  obtain ⟨it0, L, itU, s1, hEq, h1, h2, h3⟩ := seedInvoice_decomp E track_ids cust_id n s
  rw [hEq]
  refine ⟨?_, ?_, ?_⟩ <;> simp [getLast_cons_append, h1, h2, h3]

/-! ## C8: track references of invoice lines -/

lemma getD_mem {α : Type} [Inhabited α] {l : List α} {i : Nat} (h : i < l.length) :
    l.getD i default ∈ l := by
  simp only [List.getD_eq_get?, List.get?_eq_get h, Option.getD_some]
  exact List.get_mem l i h

/-- C8: an invoice line's track reference is drawn from the accumulated track
pool when the pool is nonempty, and is a freshly synthesized placeholder id
`TRACK#<8 chars>` when the pool is empty. -/
theorem c8_line_track_ref {σ : Type} (E : PyEnv σ) (track_ids : List String)
    (inv_id : String) (line_ix : Int) (s : σ) :
    (track_ids ≠ [] →
      ∃ t, attrS (seedLine E track_ids inv_id line_ix s).1 "track_id" = some t ∧ t ∈ track_ids)
  ∧ (track_ids = [] →
      ∃ sfx, attrS (seedLine E track_ids inv_id line_ix s).1 "track_id"
          = some ("TRACK#" ++ sfx) ∧ sfx.length = 8) := by
  constructor
  · intro h
    have hne : track_ids.isEmpty = false := by
      cases track_ids with
      | nil => exact absurd rfl h
      | cons x xs => rfl
    have hlen : 0 < track_ids.length := List.length_pos.mpr h
    have hi : (E.pick s track_ids.length).1 < track_ids.length := E.pickOk s _ hlen
    refine ⟨track_ids.getD (E.pick s track_ids.length).1 default, ?_, getD_mem hi⟩
    simp only [seedLine, hne, Bool.false_eq_true, if_false, randChoice]
    rfl
  · intro h
    subst h
    refine ⟨String.mk (randChoices E ID_CHARS 8 s).1, ?_, ?_⟩
    · show some ("TRACK" ++ "#" ++ String.mk (randChoices E ID_CHARS 8 s).1)
          = some ("TRACK#" ++ String.mk (randChoices E ID_CHARS 8 s).1)
      rfl
    · exact randChoices_length E ID_CHARS 8 s

theorem c8_witness :
    (∃ t, attrS (seedLine counterEnv ["TRACK#AAAAAAAA"] "INVOICE#X" 1 0).1 "track_id"
        = some t ∧ t ∈ ["TRACK#AAAAAAAA"])
  ∧ (∃ sfx, attrS (seedLine counterEnv ([] : List String) "INVOICE#X" 1 0).1 "track_id"
        = some ("TRACK#" ++ sfx) ∧ sfx.length = 8) :=
  ⟨(c8_line_track_ref counterEnv ["TRACK#AAAAAAAA"] "INVOICE#X" 1 0).1 (by decide),
   (c8_line_track_ref counterEnv ([] : List String) "INVOICE#X" 1 0).2 rfl⟩

/-! ## C2: invoice totals are exact sums of line amounts, in cents -/

/-- A rational that is a whole number of cents (two-decimal fixed point). -/
def IsCents (q : ℚ) : Prop := ∃ k : ℕ, q = (k : ℚ) / 100

lemma isCents_add {a b : ℚ} (ha : IsCents a) (hb : IsCents b) : IsCents (a + b) := by
  obtain ⟨m, rfl⟩ := ha
  obtain ⟨k, rfl⟩ := hb
  exact ⟨m + k, by push_cast; ring⟩

lemma isCents_mul_nat (P Q : Nat) : IsCents ((P : ℚ) / 100 * (Q : ℚ)) :=
  ⟨P * Q, by push_cast; ring⟩

lemma roundHalfEven_natCast (k : ℕ) : roundHalfEven (k : ℚ) = (k : ℤ) := by
  simp [roundHalfEven, Int.floor_natCast]

/-- Python `round(q, 2)` is the identity on whole-cent values: the stored total is
exactly the accumulated sum. -/
lemma round2_isCents {q : ℚ} (h : IsCents q) : round2 q = q := by
  obtain ⟨k, rfl⟩ := h
  unfold round2
  rw [div_mul_cancel₀ ((k : ℚ)) (by norm_num : (100 : ℚ) ≠ 0), roundHalfEven_natCast]
  norm_num

lemma seedLine_facts {σ : Type} (E : PyEnv σ) (tids : List String) (inv_id : String)
    (ix : Int) (s : σ) :
    lineAmount (seedLine E tids inv_id ix s).1 = (seedLine E tids inv_id ix s).2.1 ∧
    getAttr (seedLine E tids inv_id ix s).1 "type" = some (.S "InvoiceLine") ∧
    IsCents (seedLine E tids inv_id ix s).2.1 := by
  refine ⟨rfl, rfl, ?_⟩
  exact isCents_mul_nat _ _

/-- The invoice-lines fold appends one InvoiceLine item per index and
accumulates exactly the sum of their `price * qty` amounts. -/
lemma seedLines_spec {σ : Type} (E : PyEnv σ) (tids : List String) (inv_id : String)
    (ixs : List Int) (items0 : List Item) (t0 : ℚ) (s0 : σ) :
    ∃ L s1, List.foldl (seedLineStep E tids inv_id) (items0, t0, s0) ixs
        = (items0 ++ L, t0 + (L.map lineAmount).sum, s1) ∧
      (∀ it ∈ L, getAttr it "type" = some (.S "InvoiceLine")) ∧
      IsCents ((L.map lineAmount).sum) := by
  induction ixs generalizing items0 t0 s0 with
  | nil => exact ⟨[], s0, by simp, by simp, ⟨0, by norm_num⟩⟩
  | cons ix rest ih =>
    obtain ⟨hAmt, hTy, hCents⟩ := seedLine_facts E tids inv_id ix s0
    obtain ⟨L, s1, hEq, hTy2, hCents2⟩ :=
      ih (items0 ++ [(seedLine E tids inv_id ix s0).1]) (t0 + (seedLine E tids inv_id ix s0).2.1)
        (seedLine E tids inv_id ix s0).2.2
    refine ⟨(seedLine E tids inv_id ix s0).1 :: L, s1, ?_, ?_, ?_⟩
    · rw [List.foldl_cons]
      rw [show seedLineStep E tids inv_id (items0, t0, s0) ix
          = (items0 ++ [(seedLine E tids inv_id ix s0).1],
             t0 + (seedLine E tids inv_id ix s0).2.1,
             (seedLine E tids inv_id ix s0).2.2) from rfl]
      rw [hEq]
      simp [hAmt, add_assoc, List.append_assoc]
    · intro it hit
      rcases List.mem_cons.mp hit with h | h
      · subst h; exact hTy
      · exact hTy2 it h
    · simpa [hAmt] using isCents_add hCents hCents2

/-- C2: for every generated invoice, the total stored by the final upsert
equals the sum of `unit_price * quantity` over the invoice's generated line
items exactly (the claim's two-decimal rounding tolerance is not even
needed), and it is a two-decimal fixed-point value, as are the stored line
prices. -/
theorem c2_invoice_total {σ : Type} (E : PyEnv σ) (track_ids : List String)
    (cust_id : String) (n : Int) (s : σ) :
    ∃ tq : ℚ,
      ((seedInvoice E track_ids cust_id n s).1.getLast?.bind (fun it => attrN it "total"))
        = some tq ∧
      tq = (((seedInvoice E track_ids cust_id n s).1.filter
              (fun it => typeIs it "InvoiceLine")).map lineAmount).sum ∧
      IsCents tq := by
  obtain ⟨L, s1, hEq, hTy, hCents⟩ :=
    seedLines_spec E track_ids (rand_id E "INVOICE" 8 s).1 (pyRange 1 (n + 1)) [] 0
      (randint E 0 365 (E.now (rand_id E "INVOICE" 8 s).2).2).2
  refine ⟨(L.map lineAmount).sum, ?_, ?_, hCents⟩
  · simp only [seedInvoice, hEq]
    rw [getLast_cons_append]
    simp only [Option.some_bind]
    have : attrN (add_index_keys
        [("PK", .S cust_id), ("SK", .S (rand_id E "INVOICE" 8 s).1), ("type", .S "Invoice"),
         ("invoice_id", .S (rand_id E "INVOICE" 8 s).1),
         ("ts", .N (((E.now (rand_id E "INVOICE" 8 s).2).1 -
            86400 * (randint E 0 365 (E.now (rand_id E "INVOICE" 8 s).2).2).1 : ℕ) : ℚ)),
         ("total", .N (round2 (0 + (L.map lineAmount).sum)))]
        "Invoice" cust_id (rand_id E "INVOICE" 8 s).1
        (some ("INVOICE#" ++ zfill 10 (toString ((E.now (rand_id E "INVOICE" 8 s).2).1 -
            86400 * (randint E 0 365 (E.now (rand_id E "INVOICE" 8 s).2).2).1 : ℕ)) ++ "#" ++
            (rand_id E "INVOICE" 8 s).1)))
        "total" = some (round2 (0 + (L.map lineAmount).sum)) := rfl
    rw [this, zero_add, round2_isCents hCents]
  · simp only [seedInvoice, hEq, List.nil_append]
    rw [List.filter_cons_of_neg (by simp [typeIs, add_index_keys, setAttr, getAttr]),
        List.filter_append,
        List.filter_eq_self.mpr (fun it hit => by simp [typeIs, hTy it hit]),
        List.filter_cons_of_neg (by simp [typeIs, add_index_keys, setAttr, getAttr]),
        List.filter_nil, List.append_nil]

/-! ## C10: nonpositive lines-per-invoice -/

lemma pyRange_nil {a b : Int} (h : b ≤ a) : pyRange a b = [] := by
  have h0 : (b - a).toNat = 0 := Int.toNat_of_nonpos (by omega)
  simp [pyRange, h0]

/-- With a nonpositive line count the invoice iteration issues exactly the
insert and the upsert; the upsert stores total 0 and the insert has no total
attribute. -/
lemma seedInvoice_nonpos {σ : Type} (E : PyEnv σ) (tids : List String) (cid : String)
    {n : Int} (hn : n ≤ 0) (s : σ) :
    ∃ it0 itU s1, seedInvoice E tids cid n s = ([it0, itU], s1) ∧
      getAttr it0 "type" = some (.S "Invoice") ∧ getAttr itU "type" = some (.S "Invoice") ∧
      getAttr it0 "total" = none ∧ attrN itU "total" = some 0 := by
  have hr : pyRange 1 (n + 1) = [] := pyRange_nil (by omega)
  simp only [seedInvoice, hr, List.foldl_nil, List.nil_append]
  refine ⟨_, _, _, rfl, rfl, rfl, rfl, ?_⟩
  show some (round2 (0 : ℚ)) = some (0 : ℚ)
  rw [round2_isCents ⟨0, by norm_num⟩]

lemma countType_append (l1 l2 : List Item) (ty : String) :
    countType (l1 ++ l2) ty = countType l1 ty + countType l2 ty := by
  simp [countType, List.filter_append]

lemma countLine_foldl {σ : Type} (g : SeedAcc σ → SeedAcc σ)
    (hg : ∀ a, countType (g a).puts "InvoiceLine" = countType a.puts "InvoiceLine")
    (l : List Int) (a : SeedAcc σ) :
    countType (List.foldl (fun acc _ => g acc) a l).puts "InvoiceLine"
      = countType a.puts "InvoiceLine" := by
  induction l generalizing a with
  | nil => rfl
  | cons x rest ih => rw [List.foldl_cons, ih, hg]

lemma countLine_trackIter {σ : Type} (E : PyEnv σ) (bid : String) (a : SeedAcc σ) :
    countType (seedTrackIter E bid a).puts "InvoiceLine" = countType a.puts "InvoiceLine" := by
  rw [show (seedTrackIter E bid a).puts = a.puts ++ [(trackItem E bid a.rs).1] from rfl,
      countType_append, show countType [(trackItem E bid a.rs).1] "InvoiceLine" = 0 from rfl,
      Nat.add_zero]

lemma countLine_albumIter {σ : Type} (E : PyEnv σ) (sz : Sizes) (aid : String) (a : SeedAcc σ) :
    countType (seedAlbumIter E sz aid a).puts "InvoiceLine" = countType a.puts "InvoiceLine" := by
  show countType (List.foldl
      (fun acc _ => seedTrackIter E (albumItem E aid a.rs).2.1 acc)
      ({ rs := (albumItem E aid a.rs).2.2, artist_ids := a.artist_ids,
         album_ids := a.album_ids ++ [(albumItem E aid a.rs).2.1],
         track_ids := a.track_ids, puts := a.puts ++ [(albumItem E aid a.rs).1] } : SeedAcc σ)
      (pyRange 0 sz.tracks_per_album)).puts "InvoiceLine" = countType a.puts "InvoiceLine"
  rw [countLine_foldl _ (fun b => countLine_trackIter E _ b)]
  show countType (a.puts ++ [(albumItem E aid a.rs).1]) "InvoiceLine" = _
  rw [countType_append, show countType [(albumItem E aid a.rs).1] "InvoiceLine" = 0 from rfl,
      Nat.add_zero]

lemma countLine_artistIter {σ : Type} (E : PyEnv σ) (sz : Sizes) (a : SeedAcc σ) :
    countType (seedArtistIter E sz a).puts "InvoiceLine" = countType a.puts "InvoiceLine" := by
  show countType (List.foldl
      (fun acc _ => seedAlbumIter E sz (artistItem E a.rs).2.1 acc)
      ({ rs := (artistItem E a.rs).2.2, artist_ids := a.artist_ids ++ [(artistItem E a.rs).2.1],
         album_ids := a.album_ids, track_ids := a.track_ids,
         puts := a.puts ++ [(artistItem E a.rs).1] } : SeedAcc σ)
      (pyRange 0 sz.albums_per_artist)).puts "InvoiceLine" = countType a.puts "InvoiceLine"
  rw [countLine_foldl _ (fun b => countLine_albumIter E sz _ b)]
  show countType (a.puts ++ [(artistItem E a.rs).1]) "InvoiceLine" = _
  rw [countType_append, show countType [(artistItem E a.rs).1] "InvoiceLine" = 0 from rfl,
      Nat.add_zero]

lemma countLine_invoiceIter {σ : Type} (E : PyEnv σ) (cid : String) {n : Int} (hn : n ≤ 0)
    (acc : SeedAcc σ) :
    countType (seedInvoiceIter E cid n acc).puts "InvoiceLine"
      = countType acc.puts "InvoiceLine" := by
  obtain ⟨it0, itU, s1, hEq, h1, h2, h3, h4⟩ := seedInvoice_nonpos E acc.track_ids cid hn acc.rs
  show countType (acc.puts ++ (seedInvoice E acc.track_ids cid n acc.rs).1) "InvoiceLine" = _
  rw [hEq, countType_append]
  rw [show (([it0, itU], s1) : List Item × σ).1 = [it0, itU] from rfl]
  have h0 : countType [it0, itU] "InvoiceLine" = 0 := by
    simp [countType, List.filter_cons, typeIs, h1, h2]
  rw [h0, Nat.add_zero]

lemma countLine_customerIter {σ : Type} (E : PyEnv σ) (sz : Sizes)
    (hn : sz.lines_per_invoice ≤ 0) (a : SeedAcc σ) :
    countType (seedCustomerIter E sz a).puts "InvoiceLine" = countType a.puts "InvoiceLine" := by
  show countType (List.foldl
      (fun acc _ => seedInvoiceIter E (customerItem E a.rs).2.1 sz.lines_per_invoice acc)
      ({ rs := (customerItem E a.rs).2.2, artist_ids := a.artist_ids,
         album_ids := a.album_ids, track_ids := a.track_ids,
         puts := a.puts ++ [(customerItem E a.rs).1] } : SeedAcc σ)
      (pyRange 0 sz.invoices_per_customer)).puts "InvoiceLine" = countType a.puts "InvoiceLine"
  rw [countLine_foldl _ (fun b => countLine_invoiceIter E _ hn b)]
  show countType (a.puts ++ [(customerItem E a.rs).1]) "InvoiceLine" = _
  rw [countType_append, show countType [(customerItem E a.rs).1] "InvoiceLine" = 0 from rfl,
      Nat.add_zero]

/-- C10: with lines-per-invoice ≤ 0, every generated invoice is still written
(insert, then final upsert) with a stored total of zero, and the run emits no
invoice-line records at all. -/
theorem c10_no_lines {σ : Type} (E : PyEnv σ) (s : σ) (track_ids : List String)
    (cust_id : String) (sz : Sizes) (hn : sz.lines_per_invoice ≤ 0) :
    (∃ it0 itU s1,
      seedInvoice E track_ids cust_id sz.lines_per_invoice s = ([it0, itU], s1) ∧
      getAttr it0 "type" = some (.S "Invoice") ∧ getAttr itU "type" = some (.S "Invoice") ∧
      getAttr it0 "total" = none ∧ attrN itU "total" = some 0)
  ∧ countType (seed_data E sz s).puts "InvoiceLine" = 0 := by
  refine ⟨seedInvoice_nonpos E track_ids cust_id hn s, ?_⟩
  show countType (List.foldl (fun a _ => seedCustomerIter E sz a)
      (List.foldl (fun a _ => seedArtistIter E sz a)
        (⟨s, [], [], [], []⟩ : SeedAcc σ) (pyRange 0 sz.artists))
      (pyRange 0 sz.customers)).puts "InvoiceLine" = 0
  rw [countLine_foldl _ (fun b => countLine_customerIter E sz hn b),
      countLine_foldl _ (fun b => countLine_artistIter E sz b)]
  rfl

/-- Sizes with a negative line count. -/
def szNoLines : Sizes := ⟨1, 1, 1, 1, 1, -1⟩

theorem c10_witness :
    (∃ it0 itU s1,
      seedInvoice counterEnv ([] : List String) "CUSTOMER#X" szNoLines.lines_per_invoice 0
          = ([it0, itU], s1) ∧
      getAttr it0 "type" = some (.S "Invoice") ∧ getAttr itU "type" = some (.S "Invoice") ∧
      getAttr it0 "total" = none ∧ attrN itU "total" = some 0)
  ∧ countType (seed_data counterEnv szNoLines 0).puts "InvoiceLine" = 0 :=
  c10_no_lines counterEnv 0 ([] : List String) "CUSTOMER#X" szNoLines (by decide)

/-! ## C4: record counts at the spec's example sizes -/

/-- The size parameters of the claim: artists=2, albums-per-artist=1,
tracks-per-album=1, customers=1, invoices-per-customer=1, lines-per-invoice=2. -/
def szC4 : Sizes := ⟨2, 1, 1, 1, 1, 2⟩

/-- C4 counterexample: the claim fails on a run whose random source repeats
ids — both artists draw the same id, so their records collapse into one (and
likewise the albums and tracks), leaving 7 distinct records with a single
Artist record instead of the claimed counts. -/
theorem c4_counterexample :
    ¬ (countType (finalRecords (seed_data constEnv szC4 ()).puts) "Artist" = 2 ∧
       countType (finalRecords (seed_data constEnv szC4 ()).puts) "Album" = 2 ∧
       countType (finalRecords (seed_data constEnv szC4 ()).puts) "Track" = 2 ∧
       countType (finalRecords (seed_data constEnv szC4 ()).puts) "Customer" = 1 ∧
       countType (finalRecords (seed_data constEnv szC4 ()).puts) "Invoice" = 1 ∧
       countType (finalRecords (seed_data constEnv szC4 ()).puts) "InvoiceLine" = 2 ∧
       (finalRecords (seed_data constEnv szC4 ()).puts).length = 8) ∧
    countType (finalRecords (seed_data constEnv szC4 ()).puts) "Artist" = 1 ∧
    (finalRecords (seed_data constEnv szC4 ()).puts).length = 7 := by
  refine ⟨fun h => ?_, by decide, by decide⟩
  have : countType (finalRecords (seed_data constEnv szC4 ()).puts) "Artist" = 1 := by decide
  rw [this] at h
  exact absurd h.1 (by decide)

lemma putItem_of_fresh {tbl : List Item} {it : Item}
    (h : ∀ o ∈ tbl, keyOf o ≠ keyOf it) : putItem tbl it = tbl ++ [it] := by
  unfold putItem
  congr 1
  apply List.filter_eq_self.mpr
  intro o ho
  simpa using h o ho

/-- Puts with pairwise fresh keys just append. -/
lemma applyPuts_nodup {ps tbl : List Item}
    (h : ((tbl ++ ps).map keyOf).Nodup) : applyPuts tbl ps = tbl ++ ps := by
  induction ps generalizing tbl with
  | nil => simp [applyPuts]
  | cons x rest ih =>
    have hx : ∀ o ∈ tbl, keyOf o ≠ keyOf x := by
      intro o ho hk
      rw [List.map_append] at h
      have hd := (List.nodup_append.mp h).2.2
      exact hd (List.mem_map_of_mem keyOf ho) (by rw [hk]; simp)
    have hstep : applyPuts tbl (x :: rest) = applyPuts (tbl ++ [x]) rest := by
      simp [applyPuts, List.foldl_cons, putItem_of_fresh hx]
    rw [hstep, ih (by simpa [List.append_assoc] using h)]
    simp [List.append_assoc]

lemma artistItem_facts {σ : Type} (E : PyEnv σ) (s : σ) :
    keyOf (artistItem E s).1 = (some (artistItem E s).2.1, some (artistItem E s).2.1) ∧
    getAttr (artistItem E s).1 "type" = some (.S "Artist") ∧
    attrS (artistItem E s).1 "PK" = some (artistItem E s).2.1 := ⟨rfl, rfl, rfl⟩

lemma albumItem_facts {σ : Type} (E : PyEnv σ) (aid : String) (s : σ) :
    keyOf (albumItem E aid s).1 = (some aid, some (albumItem E aid s).2.1) ∧
    getAttr (albumItem E aid s).1 "type" = some (.S "Album") := ⟨rfl, rfl⟩

lemma trackItem_facts {σ : Type} (E : PyEnv σ) (bid : String) (s : σ) :
    keyOf (trackItem E bid s).1 = (some bid, some (trackItem E bid s).2.1) ∧
    getAttr (trackItem E bid s).1 "type" = some (.S "Track") := ⟨rfl, rfl⟩

lemma customerItem_facts {σ : Type} (E : PyEnv σ) (s : σ) :
    keyOf (customerItem E s).1 = (some (customerItem E s).2.1, some "PROFILE") ∧
    getAttr (customerItem E s).1 "type" = some (.S "Customer") ∧
    attrS (customerItem E s).1 "PK" = some (customerItem E s).2.1 := ⟨rfl, rfl, rfl⟩

/-- The invoice iteration at two lines, fully decomposed: insert, line 1,
line 2, upsert, with their keys and types. -/
lemma seedInvoice_two {σ : Type} (E : PyEnv σ) (tids : List String) (cid : String) (s : σ) :
    ∃ iid itI l1 l2 itU s1,
      seedInvoice E tids cid 2 s = ([itI, l1, l2, itU], s1) ∧
      keyOf itI = (some cid, some iid) ∧ getAttr itI "type" = some (.S "Invoice") ∧
      attrS itI "SK" = some iid ∧
      keyOf l1 = (some iid, some "LINE#1") ∧ getAttr l1 "type" = some (.S "InvoiceLine") ∧
      keyOf l2 = (some iid, some "LINE#2") ∧ getAttr l2 "type" = some (.S "InvoiceLine") ∧
      keyOf itU = (some cid, some iid) ∧ getAttr itU "type" = some (.S "Invoice") ∧
      attrS itU "SK" = some iid ∧
      iid.length = 16 := by
  have hlen : ((rand_id E "INVOICE" 8 s).1).length = 16 := by
    rw [rand_id_length]
    rfl
  exact ⟨(rand_id E "INVOICE" 8 s).1, _, _, _, _, _, rfl, rfl, rfl, rfl, rfl, rfl, rfl, rfl,
    rfl, rfl, rfl, hlen⟩

lemma pyRange_01 : pyRange 0 1 = [0] := by decide

lemma pyRange_02 : pyRange 0 2 = [0, 1] := by decide

/-- The run at the claim's sizes, fully decomposed into its eleven puts. -/
lemma seed_run_szC4 {σ : Type} (E : PyEnv σ) (s : σ) :
    ∃ (aid1 bid1 tid1 aid2 bid2 tid2 cid iid : String)
      (itA1 itB1 itT1 itA2 itB2 itT2 itC itI l1 l2 itU : Item) (s9 : σ),
      seed_data E szC4 s = ⟨s9, [aid1, aid2], [bid1, bid2], [tid1, tid2],
          [itA1, itB1, itT1, itA2, itB2, itT2, itC, itI, l1, l2, itU]⟩ ∧
      keyOf itA1 = (some aid1, some aid1) ∧ getAttr itA1 "type" = some (.S "Artist") ∧
      attrS itA1 "PK" = some aid1 ∧
      keyOf itB1 = (some aid1, some bid1) ∧ getAttr itB1 "type" = some (.S "Album") ∧
      keyOf itT1 = (some bid1, some tid1) ∧ getAttr itT1 "type" = some (.S "Track") ∧
      keyOf itA2 = (some aid2, some aid2) ∧ getAttr itA2 "type" = some (.S "Artist") ∧
      attrS itA2 "PK" = some aid2 ∧
      keyOf itB2 = (some aid2, some bid2) ∧ getAttr itB2 "type" = some (.S "Album") ∧
      keyOf itT2 = (some bid2, some tid2) ∧ getAttr itT2 "type" = some (.S "Track") ∧
      keyOf itC = (some cid, some "PROFILE") ∧ getAttr itC "type" = some (.S "Customer") ∧
      attrS itC "PK" = some cid ∧
      keyOf itI = (some cid, some iid) ∧ getAttr itI "type" = some (.S "Invoice") ∧
      attrS itI "SK" = some iid ∧
      keyOf l1 = (some iid, some "LINE#1") ∧ getAttr l1 "type" = some (.S "InvoiceLine") ∧
      keyOf l2 = (some iid, some "LINE#2") ∧ getAttr l2 "type" = some (.S "InvoiceLine") ∧
      keyOf itU = (some cid, some iid) ∧ getAttr itU "type" = some (.S "Invoice") ∧
      attrS itU "SK" = some iid ∧
      iid.length = 16 := by
  have fA1 := artistItem_facts E s
  rcases hA1 : artistItem E s with ⟨itA1, aid1, s1⟩
  rw [hA1] at fA1
  have fB1 := albumItem_facts E aid1 s1
  rcases hB1 : albumItem E aid1 s1 with ⟨itB1, bid1, s2⟩
  rw [hB1] at fB1
  have fT1 := trackItem_facts E bid1 s2
  rcases hT1 : trackItem E bid1 s2 with ⟨itT1, tid1, s3⟩
  rw [hT1] at fT1
  have fA2 := artistItem_facts E s3
  rcases hA2 : artistItem E s3 with ⟨itA2, aid2, s4⟩
  rw [hA2] at fA2
  have fB2 := albumItem_facts E aid2 s4
  rcases hB2 : albumItem E aid2 s4 with ⟨itB2, bid2, s5⟩
  rw [hB2] at fB2
  have fT2 := trackItem_facts E bid2 s5
  rcases hT2 : trackItem E bid2 s5 with ⟨itT2, tid2, s6⟩
  rw [hT2] at fT2
  have fC := customerItem_facts E s6
  rcases hC : customerItem E s6 with ⟨itC, cid, s7⟩
  rw [hC] at fC
  obtain ⟨iid, itI, l1, l2, itU, s8, hInv, kI, tI, skI, kL1, tL1, kL2, tL2, kU, tU, skU, hlen⟩ :=
    seedInvoice_two E [tid1, tid2] cid s7
  refine ⟨aid1, bid1, tid1, aid2, bid2, tid2, cid, iid,
    itA1, itB1, itT1, itA2, itB2, itT2, itC, itI, l1, l2, itU, s8, ?_,
    by simpa using fA1.1, by simpa using fA1.2.1, by simpa using fA1.2.2,
    by simpa using fB1.1, by simpa using fB1.2,
    by simpa using fT1.1, by simpa using fT1.2,
    by simpa using fA2.1, by simpa using fA2.2.1, by simpa using fA2.2.2,
    by simpa using fB2.1, by simpa using fB2.2,
    by simpa using fT2.1, by simpa using fT2.2,
    by simpa using fC.1, by simpa using fC.2.1, by simpa using fC.2.2,
    kI, tI, skI, kL1, tL1, kL2, tL2, kU, tU, skU, hlen⟩
  show seedCustomerIter E szC4 (seedArtistIter E szC4 (seedArtistIter E szC4 ⟨s, [], [], [], []⟩))
      = _
  simp only [seedArtistIter, seedAlbumIter, seedTrackIter, seedCustomerIter, seedInvoiceIter,
    szC4, pyRange_01, pyRange_02, List.foldl_cons, List.foldl_nil,
    hA1, hB1, hT1, hA2, hB2, hT2, hC,
    List.nil_append, List.cons_append, List.append_nil, List.singleton_append]
  rw [hInv]

/-- C4 (amended): at sizes artists=2, albums-per-artist=1, tracks-per-album=1,
customers=1, invoices-per-customer=1, lines-per-invoice=2, and provided the
randomly generated ids of the run are pairwise distinct, the final table
holds exactly 2 Artist, 2 Album, 2 Track, 1 Customer, 1 Invoice and
2 InvoiceLine records — 10 distinct records in all (the claim's figure of 8
miscounts; the invoice's two puts do collapse into one record). -/
theorem c4_record_counts {σ : Type} (E : PyEnv σ) (s : σ)
    (H : (generatedIds (seed_data E szC4 s)).Nodup) :
    countType (finalRecords (seed_data E szC4 s).puts) "Artist" = 2 ∧
    countType (finalRecords (seed_data E szC4 s).puts) "Album" = 2 ∧
    countType (finalRecords (seed_data E szC4 s).puts) "Track" = 2 ∧
    countType (finalRecords (seed_data E szC4 s).puts) "Customer" = 1 ∧
    countType (finalRecords (seed_data E szC4 s).puts) "Invoice" = 1 ∧
    countType (finalRecords (seed_data E szC4 s).puts) "InvoiceLine" = 2 ∧
    (finalRecords (seed_data E szC4 s).puts).length = 10 := by
  obtain ⟨aid1, bid1, tid1, aid2, bid2, tid2, cid, iid, itA1, itB1, itT1, itA2, itB2, itT2,
    itC, itI, l1, l2, itU, s9, hrun, kA1, tA1, pA1, kB1, tB1, kT1, tT1, kA2, tA2, pA2,
    kB2, tB2, kT2, tT2, kC, tC, pC, kI, tI, skI, kL1, tL1, kL2, tL2, kU, tU, skU, hlen⟩ :=
    seed_run_szC4 E s
  have hputs : (seed_data E szC4 s).puts
      = [itA1, itB1, itT1, itA2, itB2, itT2, itC, itI, l1, l2, itU] := by rw [hrun]
  have hCust : customerIds [itA1, itB1, itT1, itA2, itB2, itT2, itC, itI, l1, l2, itU]
      = [cid] := by
    simp [customerIds, typeIs, tA1, tB1, tT1, tA2, tB2, tT2, tC, tI, tL1, tL2, tU, pC]
  have hInvIds : invoiceIds [itA1, itB1, itT1, itA2, itB2, itT2, itC, itI, l1, l2, itU]
      = [iid] := by
    simp [invoiceIds, typeIs, tA1, tB1, tT1, tA2, tB2, tT2, tC, tI, tL1, tL2, tU, skI, skU]
  have hgen : generatedIds (seed_data E szC4 s)
      = [aid1, aid2] ++ [bid1, bid2] ++ [tid1, tid2]
        ++ customerIds [itA1, itB1, itT1, itA2, itB2, itT2, itC, itI, l1, l2, itU]
        ++ invoiceIds [itA1, itB1, itT1, itA2, itB2, itT2, itC, itI, l1, l2, itU] := by
    rw [hrun]
    rfl
  rw [hgen, hCust, hInvIds] at H
  simp only [List.cons_append, List.nil_append, List.nodup_cons, List.mem_cons,
    List.mem_singleton, List.not_mem_nil, or_false, not_or, not_false_eq_true,
    List.nodup_nil, and_true] at H
  obtain ⟨⟨h12, h13, h14, h15, h16, h17, h18⟩, ⟨h23, h24, h25, h26, h27, h28⟩,
    ⟨h34, h35, h36, h37, h38⟩, ⟨h45, h46, h47, h48⟩, ⟨h56, h57, h58⟩, ⟨h67, h68⟩, h78⟩ := H
  have hiidP : iid ≠ "PROFILE" := by
    intro hEq
    rw [hEq] at hlen
    exact absurd hlen (by decide)
  have hPiid : "PROFILE" ≠ iid := Ne.symm hiidP
  have hkeys : (([itA1, itB1, itT1, itA2, itB2, itT2, itC, itI, l1, l2] : List Item).map
      keyOf).Nodup := by
    simp only [List.map_cons, List.map_nil, kA1, kB1, kT1, kA2, kB2, kT2, kC, kI, kL1, kL2]
    simp [List.nodup_cons, List.mem_cons, not_or, Prod.mk.injEq,
      h12, h13, h14, h17, h18, h23, h24, h27, h28, h34, h37, h38, h47, h48, h78,
      Ne.symm h12, Ne.symm h13, Ne.symm h14, Ne.symm h17, Ne.symm h18,
      Ne.symm h23, Ne.symm h24, Ne.symm h27, Ne.symm h28, Ne.symm h34,
      Ne.symm h37, Ne.symm h38, Ne.symm h47, Ne.symm h48, Ne.symm h78,
      hiidP, hPiid, (by decide : ("LINE#1" : String) ≠ "LINE#2")]
  have hfinal : finalRecords [itA1, itB1, itT1, itA2, itB2, itT2, itC, itI, l1, l2, itU]
      = [itA1, itB1, itT1, itA2, itB2, itT2, itC, l1, l2, itU] := by
    have h10 : applyPuts [] [itA1, itB1, itT1, itA2, itB2, itT2, itC, itI, l1, l2]
        = [itA1, itB1, itT1, itA2, itB2, itT2, itC, itI, l1, l2] := by
      have := @applyPuts_nodup [itA1, itB1, itT1, itA2, itB2, itT2, itC, itI, l1, l2]
        ([] : List Item) (by simpa using hkeys)
      simpa using this
    show applyPuts [] ([itA1, itB1, itT1, itA2, itB2, itT2, itC, itI, l1, l2] ++ [itU]) = _
    rw [show applyPuts [] ([itA1, itB1, itT1, itA2, itB2, itT2, itC, itI, l1, l2] ++ [itU])
        = applyPuts (applyPuts [] [itA1, itB1, itT1, itA2, itB2, itT2, itC, itI, l1, l2]) [itU]
        from by simp [applyPuts, List.foldl_append]]
    rw [h10]
    show putItem [itA1, itB1, itT1, itA2, itB2, itT2, itC, itI, l1, l2] itU = _
    unfold putItem
    simp [List.filter_cons, kA1, kB1, kT1, kA2, kB2, kT2, kC, kI, kL1, kL2, kU,
      Prod.mk.injEq, h17, h37, h47, h78, hPiid,
      Ne.symm h17, Ne.symm h27, Ne.symm h37, Ne.symm h47, Ne.symm h78, h27]
  rw [hputs, hfinal]
  refine ⟨?_, ?_, ?_, ?_, ?_, ?_, rfl⟩ <;>
    simp [countType, typeIs, List.filter_cons, tA1, tB1, tT1, tA2, tB2, tT2, tC, tL1, tL2, tU]

set_option maxRecDepth 10000 in
theorem c4_witness :
    countType (finalRecords (seed_data counterEnv szC4 0).puts) "Artist" = 2 ∧
    countType (finalRecords (seed_data counterEnv szC4 0).puts) "Album" = 2 ∧
    countType (finalRecords (seed_data counterEnv szC4 0).puts) "Track" = 2 ∧
    countType (finalRecords (seed_data counterEnv szC4 0).puts) "Customer" = 1 ∧
    countType (finalRecords (seed_data counterEnv szC4 0).puts) "Invoice" = 1 ∧
    countType (finalRecords (seed_data counterEnv szC4 0).puts) "InvoiceLine" = 2 ∧
    (finalRecords (seed_data counterEnv szC4 0).puts).length = 10 :=
  c4_record_counts counterEnv 0 (by decide)
